import Mathlib

/-!
Verification of the Detection Aggregation & Guidance Engine of the
AI-mobility-for-blind backend.

The definitions below are a shallow embedding of
`backend/app/services/detection_logic.py` and
`backend/app/services/video_processor.py`:

* Python floats are modelled as rationals (`ℚ`), Python ints as `ℤ`/`ℕ`.
* The label / zone strings produced by the fixed class tables are modelled
  as enumerations (the bucket-key string `f"{label}_{horiz}_{depth}"` is
  modelled as the structure `BucketKey`; for labels drawn from the class
  tables the substring tests `light in key` of the source coincide with
  label membership, since no table label occurs inside another key
  component).
* The mutable `detection_state` dict is modelled as a function
  `BucketKey → Option AnnState`, threaded explicitly.
* External effects of the frame loop (OpenCV capture, the three YOLO
  models) are abstracted: each frame of the source either yields the list
  of normalized detections or raises, modelled as `Except String (List Det)`.
-/

/-- Labels produced by the class tables `YOLO_CLASS_NAMES`,
`TRAFFIC_LIGHT_CLASS_NAMES` and `ZEBRA_CLASS_NAMES`. -/
inductive Lbl where
  | person
  | bicycle
  | car
  | motorcycle
  | bus
  | truck
  | greenLight
  | redLight
  | yellowLight
  | zebraCrossing
deriving DecidableEq

/-- The label string of the source tables, used inside message text. -/
def Lbl.name : Lbl → String
  | .person => "Person"
  | .bicycle => "Bicycle"
  | .car => "Car"
  | .motorcycle => "Motorcycle"
  | .bus => "Bus"
  | .truck => "Truck"
  | .greenLight => "Green Light"
  | .redLight => "Red Light"
  | .yellowLight => "Yellow Light"
  | .zebraCrossing => "Zebra Crossing"

/-- Horizontal zone (`"left"` / `"center"` / `"right"` in the source). -/
inductive Horiz where
  | left
  | center
  | right
deriving DecidableEq

/-- Depth zone (`"far"` / `"approaching"` / `"very close"` in the source). -/
inductive Depth where
  | far
  | approaching
  | veryClose
deriving DecidableEq

/-- `VEHICLE_CLASSES` of detection_logic.py. -/
def VEHICLE_CLASSES : List Lbl := [.car, .bus, .truck, .motorcycle, .bicycle]

/-- `TRAFFIC_LIGHTS` of detection_logic.py. -/
def TRAFFIC_LIGHTS : List Lbl := [.greenLight, .redLight, .yellowLight]

/-- `ZEBRA_CROSSING` of detection_logic.py. -/
def ZEBRA_CROSSING : List Lbl := [.zebraCrossing]

/-- `FRAME_GROUPING_WINDOW` of detection_logic.py. -/
def FRAME_GROUPING_WINDOW : ℤ := 120

/-- `CONFIDENCE_THRESHOLD` of detection_logic.py. -/
def CONFIDENCE_THRESHOLD : ℚ := 0.7

/-- A normalized detection record as built by video_processor.py
(the fields consumed by grouping and arbitration; the raw box coordinates
are only used for drawing and for computing `horiz`, `depth` and
`dist_score`). -/
structure Det where
  label : Lbl
  conf : ℚ
  horiz : Horiz
  depth : Depth
  dist_score : ℚ
deriving DecidableEq

/-- The bucket key `f"{label}_{horiz}_{depth}"` of `group_detections`. -/
structure BucketKey where
  label : Lbl
  horiz : Horiz
  depth : Depth
deriving DecidableEq

/-- A grouped-detections dict in insertion order (Python dicts preserve
insertion order). -/
abbrev Grouped := List (BucketKey × List Det)

/-- `calculate_distance_score(y2, frame_h)`: `return y2 / frame_h`.
Python raises `ZeroDivisionError` when `frame_h` is zero (with numpy
operands the quotient is infinite); both failure modes are modelled as
`none`. -/
def calculate_distance_score (y2 frame_h : ℚ) : Option ℚ :=
  if frame_h = 0 then none else some (y2 / frame_h)

/-- `get_position(cx, cy, y2, frame_w, frame_h)` of detection_logic.py.
The `cy` argument is unused by the source body. -/
def get_position (cx cy y2 frame_w frame_h : ℚ) : Horiz × Depth :=
  let horiz : Horiz :=
    if cx < frame_w / 3 then .left
    else if cx > (2 * frame_w) / 3 then .right
    else .center
  let depth : Depth :=
    if y2 > frame_h * 0.75 then .veryClose
    else if y2 > frame_h * 0.5 then .approaching
    else .far
  (horiz, depth)

/-- One step of `group_detections`: `grouped[key].append(det)` on a
`defaultdict(list)`, which preserves first-insertion order of keys. -/
def addToGroup (g : Grouped) (det : Det) : Grouped :=
  let key : BucketKey := ⟨det.label, det.horiz, det.depth⟩
  if g.any (fun kv => kv.1 = key) then
    g.map (fun kv => if kv.1 = key then (kv.1, kv.2 ++ [det]) else kv)
  else
    g ++ [(key, [det])]

/-- `group_detections(detections, frame_w, frame_h)` of detection_logic.py
(the frame dimensions are unused by the source body). -/
def group_detections (detections : List Det) (_frame_w _frame_h : ℚ) : Grouped :=
  detections.foldl addToGroup []

/-- The per-key announcement state dict entry of `should_announce`
(`first_frame`, `last_frame`, `last_announced`, `count`). -/
structure AnnState where
  first_frame : ℤ
  last_frame : ℤ
  last_announced : ℤ
  count : ℕ
deriving DecidableEq

/-- The mutable `detection_state` dict, as a total lookup. -/
abbrev DetState := BucketKey → Option AnnState

/-- The empty `detection_state` dict a fresh session starts from. -/
def emptyDetState : DetState := fun _ => none

/-- Dict update `detection_state[key] = a`. -/
def DetState.update (st : DetState) (key : BucketKey) (a : AnnState) : DetState :=
  fun k => if k = key then some a else st k

/-- `should_announce(detection_key, current_frame, detection_state)` of
detection_logic.py; the dict mutation is returned as the second
component. -/
def should_announce (detection_key : BucketKey) (current_frame : ℤ)
    (detection_state : DetState) : Bool × DetState :=
  match detection_state detection_key with
  | none =>
      (true, detection_state.update detection_key
        ⟨current_frame, current_frame, current_frame, 1⟩)
  | some state =>
      if FRAME_GROUPING_WINDOW ≤ current_frame - state.last_announced then
        (true, detection_state.update detection_key
          ⟨state.first_frame, current_frame, current_frame, state.count + 1⟩)
      else
        (false, detection_state.update detection_key
          ⟨state.first_frame, current_frame, state.last_announced, state.count + 1⟩)

/-- Stable descending insertion used to model Python `list.sort` /
`sorted` with `reverse=True`, which keep equal-keyed elements in their
original order. -/
def insertDescBy {α β : Type} [LinearOrder β] (f : α → β) (x : α) : List α → List α
  | [] => [x]
  | y :: ys => if f y ≤ f x then x :: y :: ys else y :: insertDescBy f x ys

/-- Stable descending sort by a key (Python `sorted(key=f, reverse=True)`). -/
def sortDescBy {α β : Type} [LinearOrder β] (f : α → β) : List α → List α
  | [] => []
  | x :: xs => insertDescBy f x (sortDescBy f xs)

/-- A candidate guidance message: the parallel lists `priority_scores` and
`messages` of `generate_audio_message`, zipped. -/
abbrev Cand := ℤ × String

/-- The `vehicle_info` dict built in the vehicle-collection loop of
`generate_audio_message`. -/
structure VehInfo where
  label : Lbl
  horiz : Horiz
  depth : Depth
  dist_score : ℚ
  count : ℕ
  key : BucketKey
deriving DecidableEq

/-- The person dict built in the people-collection loop of
`generate_audio_message`. -/
structure PersonInfo where
  horiz : Horiz
  depth : Depth
  dist_score : ℚ
  count : ℕ
  key : BucketKey
deriving DecidableEq

/-- One entry of the traffic-light loop of `generate_audio_message`:
confidence gate, `should_announce` gate, then one fixed-priority message
per light colour. -/
def traffic_step (frame_count : ℤ) (acc : List Cand × DetState)
    (kv : BucketKey × List Det) : List Cand × DetState :=
  if kv.1.label ∈ TRAFFIC_LIGHTS then
    match kv.2.head? with
    | none => acc
    | some det =>
      if det.conf < CONFIDENCE_THRESHOLD then acc
      else
        let sa := should_announce kv.1 frame_count acc.2
        if sa.1 then
          if det.label = .greenLight then
            (acc.1 ++ [(9, "Green light ahead. It\x27s safe to cross.")], sa.2)
          else if det.label = .redLight then
            (acc.1 ++ [(10, "Red light ahead. Stop and wait.")], sa.2)
          else if det.label = .yellowLight then
            (acc.1 ++ [(9, "Yellow light ahead. Prepare to stop.")], sa.2)
          else (acc.1, sa.2)
        else (acc.1, sa.2)
  else acc

/-- The traffic-light loop (first stage) of `generate_audio_message`. -/
def traffic_stage (g : Grouped) (frame_count : ℤ)
    (acc : List Cand × DetState) : List Cand × DetState :=
  g.foldl (traffic_step frame_count) acc

/-- The zebra-crossing scan of `generate_audio_message`: the source breaks
at the first bucket whose representative label is a zebra crossing, and
records its key only when its confidence meets the threshold. -/
def zebra_scan (g : Grouped) : Option BucketKey :=
  match g.find? (fun kv =>
      match kv.2.head? with
      | some d => decide (d.label ∈ ZEBRA_CROSSING)
      | none => false) with
  | some kv =>
    match kv.2.head? with
    | some d => if CONFIDENCE_THRESHOLD ≤ d.conf then some kv.1 else none
    | none => none
  | none => none

/-- The vehicle/people collection loop of `generate_audio_message`:
confidence-gated routing of each bucket representative into the
left/right/center vehicle lists or the people list. -/
def zone_step (acc : List VehInfo × List VehInfo × List VehInfo × List PersonInfo)
    (kv : BucketKey × List Det) :
    List VehInfo × List VehInfo × List VehInfo × List PersonInfo :=
  match kv.2.head? with
  | none => acc
  | some det =>
    if det.conf < CONFIDENCE_THRESHOLD then acc
    else if det.label ∈ VEHICLE_CLASSES then
      let vi : VehInfo := ⟨det.label, det.horiz, det.depth, det.dist_score, kv.2.length, kv.1⟩
      match det.horiz with
      | .left => (acc.1 ++ [vi], acc.2.1, acc.2.2.1, acc.2.2.2)
      | .right => (acc.1, acc.2.1 ++ [vi], acc.2.2.1, acc.2.2.2)
      | .center => (acc.1, acc.2.1, acc.2.2.1 ++ [vi], acc.2.2.2)
    else if det.label = .person then
      (acc.1, acc.2.1, acc.2.2.1,
        acc.2.2.2 ++ [⟨det.horiz, det.depth, det.dist_score, kv.2.length, kv.1⟩])
    else acc

/-- The vehicle/people collection loop over all buckets. -/
def zone_lists (g : Grouped) :
    List VehInfo × List VehInfo × List VehInfo × List PersonInfo :=
  g.foldl zone_step ([], [], [], [])

/-- The CENTER vehicle branch of `generate_audio_message` (priority 10 /
8 by proximity band; far vehicles are skipped after `should_announce`
already ran). -/
def center_stage (frame_count : ℤ) (vehicles_center : List VehInfo)
    (acc : List Cand × DetState) : List Cand × DetState :=
  match vehicles_center with
  | [] => acc
  | v :: _ =>
    let sa := should_announce v.key frame_count acc.2
    if sa.1 then
      let count_str := if v.count > 1 then toString v.count ++ " " else "A "
      let vehicle_name := if v.count > 1 then v.label.name ++ "s" else v.label.name
      if v.dist_score > 0.75 then
        (acc.1 ++ [(10, "Watch out! " ++ count_str ++ vehicle_name ++
          " right in front of you! Stay where you are!")], sa.2)
      else if v.dist_score > 0.5 then
        (acc.1 ++ [(8, "Careful! " ++ count_str ++ vehicle_name ++
          " coming towards you.")], sa.2)
      else (acc.1, sa.2)
    else (acc.1, sa.2)

/-- The LEFT vehicle branch of `generate_audio_message` (priority 9 / 7). -/
def left_stage (frame_count : ℤ) (vehicles_left : List VehInfo)
    (acc : List Cand × DetState) : List Cand × DetState :=
  match vehicles_left with
  | [] => acc
  | v :: _ =>
    let sa := should_announce v.key frame_count acc.2
    if sa.1 then
      let count_str := if v.count > 1 then toString v.count ++ " " else "A "
      let vehicle_name := if v.count > 1 then v.label.name ++ "s" else v.label.name
      if v.dist_score > 0.75 then
        (acc.1 ++ [(9, "Warning! " ++ count_str ++ vehicle_name ++
          " on your left side! Don\x27t move!")], sa.2)
      else if v.dist_score > 0.5 then
        (acc.1 ++ [(7, count_str ++ vehicle_name ++
          " approaching on your left.")], sa.2)
      else (acc.1, sa.2)
    else (acc.1, sa.2)

/-- The RIGHT vehicle branch of `generate_audio_message` (priority 9 / 7). -/
def right_stage (frame_count : ℤ) (vehicles_right : List VehInfo)
    (acc : List Cand × DetState) : List Cand × DetState :=
  match vehicles_right with
  | [] => acc
  | v :: _ =>
    let sa := should_announce v.key frame_count acc.2
    if sa.1 then
      let count_str := if v.count > 1 then toString v.count ++ " " else "A "
      let vehicle_name := if v.count > 1 then v.label.name ++ "s" else v.label.name
      if v.dist_score > 0.75 then
        (acc.1 ++ [(9, "Warning! " ++ count_str ++ vehicle_name ++
          " on your right side! Don\x27t move!")], sa.2)
      else if v.dist_score > 0.5 then
        (acc.1 ++ [(7, count_str ++ vehicle_name ++
          " approaching on your right.")], sa.2)
      else (acc.1, sa.2)
    else (acc.1, sa.2)

/-- The zebra-crossing guidance branch of `generate_audio_message`:
priority 7 only when all three vehicle lists are empty, priority 8 when
vehicles exist and one of them has `dist_score > 0.6`, nothing otherwise. -/
def zebra_stage (frame_count : ℤ) (zres : Option BucketKey)
    (vehicles_center vehicles_left vehicles_right : List VehInfo)
    (acc : List Cand × DetState) : List Cand × DetState :=
  match zres with
  | none => acc
  | some zebra_key =>
    let sa := should_announce zebra_key frame_count acc.2
    if sa.1 then
      if vehicles_center = [] ∧ vehicles_left = [] ∧ vehicles_right = [] then
        (acc.1 ++ [(7, "Zebra crossing in front of you. No vehicles nearby. You can cross now.")], sa.2)
      else if vehicles_center ≠ [] ∨ vehicles_left ≠ [] ∨ vehicles_right ≠ [] then
        if (vehicles_center ++ vehicles_left ++ vehicles_right).any
            (fun v => decide (v.dist_score > 0.6)) then
          (acc.1 ++ [(8, "Zebra crossing ahead, but vehicles are nearby. Wait for them to pass.")], sa.2)
        else (acc.1, sa.2)
      else (acc.1, sa.2)
    else (acc.1, sa.2)

/-- The people branch of `generate_audio_message`: only the nearest person
bucket, only when `dist_score > 0.75`, priority 4. -/
def people_stage (frame_count : ℤ) (people_detected : List PersonInfo)
    (acc : List Cand × DetState) : List Cand × DetState :=
  match sortDescBy (fun p : PersonInfo => p.dist_score) people_detected with
  | [] => acc
  | p :: _ =>
    if p.dist_score > 0.75 then
      let sa := should_announce p.key frame_count acc.2
      if sa.1 then
        let count_str := if p.count > 1 then toString p.count ++ " people" else "Person"
        let position : String :=
          match p.horiz with
          | .center => "ahead"
          | .left => "left"
          | .right => "right"
        (acc.1 ++ [(4, count_str ++ " " ++ position ++ ".")], sa.2)
      else (acc.1, sa.2)
    else acc

/-- The body of `generate_audio_message` up to (and excluding) the final
selection: the parallel `messages` / `priority_scores` lists in append
order, and the detection state after all `should_announce` calls of the
frame. -/
def collect_candidates (grouped_detections : Grouped) (frame_count : ℤ)
    (_fps : ℚ) (detection_state : DetState) : List Cand × DetState :=
  let s1 := traffic_stage grouped_detections frame_count ([], detection_state)
  let zres := zebra_scan grouped_detections
  let lists := zone_lists grouped_detections
  let vehicles_left := sortDescBy (fun v : VehInfo => v.dist_score) lists.1
  let vehicles_right := sortDescBy (fun v : VehInfo => v.dist_score) lists.2.1
  let vehicles_center := sortDescBy (fun v : VehInfo => v.dist_score) lists.2.2.1
  let people_detected := lists.2.2.2
  let s2 := center_stage frame_count vehicles_center s1
  let s3 := left_stage frame_count vehicles_left s2
  let s4 := right_stage frame_count vehicles_right s3
  let s5 := zebra_stage frame_count zres vehicles_center vehicles_left vehicles_right s4
  people_stage frame_count people_detected s5

/-- `generate_audio_message(grouped_detections, frame_count, fps,
detection_state)` of detection_logic.py: build the candidate messages,
then return only the top entry of the stable descending sort by priority
(`sorted(zip(priority_scores, messages), key=lambda x: x[0],
reverse=True)[0][1]`), or `None` when no candidate was produced. -/
def generate_audio_message (grouped_detections : Grouped) (frame_count : ℤ)
    (fps : ℚ) (detection_state : DetState) : Option String × DetState :=
  let cs := collect_candidates grouped_detections frame_count fps detection_state
  match sortDescBy (fun pm : Cand => pm.1) cs.1 with
  | [] => (none, cs.2)
  | top :: _ => (some top.2, cs.2)

/-- Python `round` on an exact rational: round half to even. -/
def pythonRound (q : ℚ) : ℤ :=
  let f := ⌊q⌋
  let r := q - (f : ℚ)
  if r < 1 / 2 then f
  else if 1 / 2 < r then f + 1
  else if f % 2 = 0 then f else f + 1

/-- `TARGET_FPS` of video_processor.py. -/
def TARGET_FPS : ℚ := 3

/-- `sample_interval = max(1, int(round(fps / TARGET_FPS)))` of
video_processor.py. -/
def sample_interval_of (fps : ℚ) : ℕ :=
  max 1 (pythonRound (fps / TARGET_FPS)).toNat

/-- The outcome of attempting one frame of the source inside the `try`
block: either the merged, normalized detections of the three models, or
the text of an exception raised while processing that frame. A frame for
which `cap.read()` returns `ret = False` ends the list. -/
abbrev FrameOutcome := Except String (List Det)

/-- The sentinel returned when the video cannot be opened. -/
def OPEN_ERROR_MESSAGE : String := "Error: Could not open video file."

/-- The diagnostic appended by the `except` handler
(`f"An error occurred during processing: {e}"`). -/
def processing_error_message (e : String) : String :=
  "An error occurred during processing: " ++ e

/-- `if audio_message: audio_log.append(audio_message)` of the frame
loops. -/
def append_opt (audio_log : List String) (m : Option String) : List String :=
  match m with
  | some msg => audio_log ++ [msg]
  | none => audio_log

/-- The frame loop of `run_detection`: sampling by
`frame_count % sample_interval`, grouping + arbitration on sampled frames
(`generate_audio_message` is only invoked when the detection list is
nonempty), appending any produced message, early `break` once the log
holds 12 messages, and the `except` handler that appends one diagnostic
and stops. -/
def run_detection_loop (interval : ℕ) (fps frame_w frame_h : ℚ) :
    List FrameOutcome → ℕ → DetState → List String → List String
  | [], _, _, audio_log => audio_log
  | f :: rest, frame_count, st, audio_log =>
    if frame_count % interval ≠ 0 then
      run_detection_loop interval fps frame_w frame_h rest (frame_count + 1) st audio_log
    else
      match f with
      | .error e => audio_log ++ [processing_error_message e]
      | .ok detections =>
        let grouped := group_detections detections frame_w frame_h
        let res :=
          if detections.isEmpty then (none, st)
          else generate_audio_message grouped (frame_count : ℤ) fps st
        let log2 := append_opt audio_log res.1
        if 12 ≤ log2.length then log2
        else run_detection_loop interval fps frame_w frame_h rest (frame_count + 1) res.2 log2

/-- `run_detection(video_path, ...)` of video_processor.py, with the
OpenCV capture abstracted: `openOk` models `cap.isOpened()`, `fps0` the
`cap.get(cv2.CAP_PROP_FPS) or 30` input (0 modelling a falsy fps), and
`frames` the successive outcomes of the per-frame body. -/
def run_detection (openOk : Bool) (frame_w frame_h fps0 : ℚ)
    (frames : List FrameOutcome) : List String :=
  let fps := if fps0 = 0 then 30 else fps0
  if !openOk then [OPEN_ERROR_MESSAGE]
  else
    run_detection_loop (sample_interval_of fps) fps frame_w frame_h frames 0 emptyDetState []

/-- The frame loop of `run_detection_with_video`: identical message-log
logic but with no early cut-off at 12 messages (frame annotation and the
progress callback have no effect on the log). -/
def run_detection_with_video_loop (interval : ℕ) (fps frame_w frame_h : ℚ) :
    List FrameOutcome → ℕ → DetState → List String → List String
  | [], _, _, audio_log => audio_log
  | f :: rest, frame_count, st, audio_log =>
    if frame_count % interval ≠ 0 then
      run_detection_with_video_loop interval fps frame_w frame_h rest (frame_count + 1) st audio_log
    else
      match f with
      | .error e => audio_log ++ [processing_error_message e]
      | .ok detections =>
        let grouped := group_detections detections frame_w frame_h
        let res :=
          if detections.isEmpty then (none, st)
          else generate_audio_message grouped (frame_count : ℤ) fps st
        run_detection_with_video_loop interval fps frame_w frame_h rest (frame_count + 1) res.2
          (append_opt audio_log res.1)

/-- `run_detection_with_video(video_path, output_video_path, ...)` of
video_processor.py, abstracted like `run_detection`. -/
def run_detection_with_video (openOk : Bool) (frame_w frame_h fps0 : ℚ)
    (frames : List FrameOutcome) : List String :=
  let fps := if fps0 = 0 then 30 else fps0
  if !openOk then [OPEN_ERROR_MESSAGE]
  else
    run_detection_with_video_loop (sample_interval_of fps) fps frame_w frame_h frames 0 emptyDetState []

/-- Spec-side characterization of the final selection: among the
candidates of a frame, the earliest one attaining the maximum priority
(the spec calls this a stable maximum with ties broken by append order). -/
def spec_stable_max {α β : Type} [LinearOrder β] (f : α → β) : List α → Option α
  | [] => none
  | x :: xs =>
    match spec_stable_max f xs with
    | none => some x
    | some m => if f m ≤ f x then some x else some m

lemma mem_insertDescBy {α β : Type} [LinearOrder β] (f : α → β) (x a : α) :
    ∀ l : List α, a ∈ insertDescBy f x l ↔ a = x ∨ a ∈ l := by
  intro l
  induction l with
  | nil => simp [insertDescBy]
  | cons y ys ih =>
    simp only [insertDescBy]
    split
    · simp
    · simp only [List.mem_cons, ih]
      tauto

lemma insertDescBy_ne_nil {α β : Type} [LinearOrder β] (f : α → β) (x : α)
    (l : List α) : insertDescBy f x l ≠ [] := by
  cases l with
  | nil => simp [insertDescBy]
  | cons y ys =>
    simp only [insertDescBy]
    split <;> simp

lemma sortDescBy_eq_nil_iff {α β : Type} [LinearOrder β] (f : α → β)
    (l : List α) : sortDescBy f l = [] ↔ l = [] := by
  cases l with
  | nil => simp [sortDescBy]
  | cons x xs =>
    simp only [sortDescBy]
    constructor
    · intro h
      exact absurd h (insertDescBy_ne_nil f x _)
    · intro h
      exact absurd h (by simp)

lemma mem_sortDescBy {α β : Type} [LinearOrder β] (f : α → β) (a : α) :
    ∀ l : List α, a ∈ sortDescBy f l ↔ a ∈ l := by
  intro l
  induction l with
  | nil => simp [sortDescBy]
  | cons x xs ih =>
    simp only [sortDescBy, mem_insertDescBy, ih, List.mem_cons]

lemma head?_insertDescBy {α β : Type} [LinearOrder β] (f : α → β) (x : α)
    (l : List α) :
    (insertDescBy f x l).head? =
      some (match l.head? with
            | none => x
            | some y => if f y ≤ f x then x else y) := by
  cases l with
  | nil => simp [insertDescBy]
  | cons y ys =>
    simp only [insertDescBy, List.head?_cons]
    split <;> simp_all

lemma head?_sortDescBy {α β : Type} [LinearOrder β] (f : α → β)
    (l : List α) : (sortDescBy f l).head? = spec_stable_max f l := by
  induction l with
  | nil => rfl
  | cons x xs ih =>
    simp only [sortDescBy, head?_insertDescBy, ih, spec_stable_max]
    cases h : spec_stable_max f xs
    · simp
    · simp only [apply_ite some]

/-- C6: for positive frame dimensions, `get_position` classifies
horizontally as left iff `cx < frame_w/3`, right iff `cx > 2*frame_w/3`,
center otherwise; classifies depth as very close iff `y2 > 0.75*frame_h`,
approaching iff `0.5*frame_h < y2 ≤ 0.75*frame_h`, far otherwise; and
`calculate_distance_score` returns exactly `y2 / frame_h`. -/
theorem C6_geometry_classifier (cx cy y2 frame_w frame_h : ℚ)
    (hw : 0 < frame_w) (hh : 0 < frame_h) :
    ((get_position cx cy y2 frame_w frame_h).1 = Horiz.left ↔ cx < frame_w / 3) ∧
    ((get_position cx cy y2 frame_w frame_h).1 = Horiz.right ↔ (2 * frame_w) / 3 < cx) ∧
    ((get_position cx cy y2 frame_w frame_h).1 = Horiz.center ↔
      (frame_w / 3 ≤ cx ∧ cx ≤ (2 * frame_w) / 3)) ∧
    ((get_position cx cy y2 frame_w frame_h).2 = Depth.veryClose ↔ frame_h * 0.75 < y2) ∧
    ((get_position cx cy y2 frame_w frame_h).2 = Depth.approaching ↔
      (frame_h * 0.5 < y2 ∧ y2 ≤ frame_h * 0.75)) ∧
    ((get_position cx cy y2 frame_w frame_h).2 = Depth.far ↔ y2 ≤ frame_h * 0.5) ∧
    calculate_distance_score y2 frame_h = some (y2 / frame_h) := by
  have hne : ¬(frame_h = 0) := ne_of_gt hh
  have h13 : frame_w / 3 < (2 * frame_w) / 3 := by linarith
  have h57 : frame_h * 0.5 < frame_h * 0.75 := by linarith
  unfold get_position calculate_distance_score
  refine ⟨?_, ?_, ?_, ?_, ?_, ?_, by simp [hne]⟩ <;>
    split_ifs with h1 h2 <;> simp_all <;> linarith

/-- Witness for C6 at `cx = 1, cy = 0, y2 = 5, frame_w = 9, frame_h = 6`. -/
theorem C6_geometry_classifier_witness :
    (((get_position 1 0 5 9 6).1 = Horiz.left ↔ (1 : ℚ) < 9 / 3) ∧
    ((get_position 1 0 5 9 6).1 = Horiz.right ↔ (2 * 9 : ℚ) / 3 < 1) ∧
    ((get_position 1 0 5 9 6).1 = Horiz.center ↔
      ((9 : ℚ) / 3 ≤ 1 ∧ (1 : ℚ) ≤ (2 * 9) / 3)) ∧
    ((get_position 1 0 5 9 6).2 = Depth.veryClose ↔ (6 : ℚ) * 0.75 < 5) ∧
    ((get_position 1 0 5 9 6).2 = Depth.approaching ↔
      ((6 : ℚ) * 0.5 < 5 ∧ (5 : ℚ) ≤ 6 * 0.75)) ∧
    ((get_position 1 0 5 9 6).2 = Depth.far ↔ (5 : ℚ) ≤ 6 * 0.5) ∧
    calculate_distance_score 5 6 = some (5 / 6)) :=
  C6_geometry_classifier 1 0 5 9 6 (by norm_num) (by norm_num)

/-- C9 counterexample: on a zero-sized frame the geometry classifier is
not guarded — a detection with `cx = 10, y2 = 5` is classified
Right / VeryClose, not Center / Far, and `calculate_distance_score`
divides by zero (no finite score). -/
theorem C9_counterexample :
    get_position 10 0 5 0 0 = (Horiz.right, Depth.veryClose) ∧
    calculate_distance_score 5 0 = none := by
  constructor
  · unfold get_position
    norm_num
  · unfold calculate_distance_score
    norm_num

/-- C9 amended: for a zero-sized frame, `get_position` does not fail but
classifies every detection with positive `cx` and positive `y2` as
Right / VeryClose (not Far / Center), and `calculate_distance_score` has
no defined value (division by zero); the classifier is not defensively
guarded. -/
theorem C9_amended_zero_frame (cx cy y2 : ℚ) (hx : 0 < cx) (hy : 0 < y2) :
    get_position cx cy y2 0 0 = (Horiz.right, Depth.veryClose) ∧
    calculate_distance_score y2 0 = none := by
  have h1 : ¬(cx < (0 : ℚ) / 3) := by
    rw [zero_div]
    exact not_lt.mpr (le_of_lt hx)
  have h2 : cx > (2 * 0 : ℚ) / 3 := by
    rw [mul_zero, zero_div]
    exact hx
  have h3 : y2 > (0 : ℚ) * 0.75 := by
    rw [zero_mul]
    exact hy
  constructor
  · unfold get_position
    simp only [if_neg h1, if_pos h2, if_pos h3]
  · unfold calculate_distance_score
    simp

/-- Witness for the amended C9 at `cx = 10, y2 = 5`. -/
theorem C9_amended_zero_frame_witness :
    get_position 10 0 5 0 0 = (Horiz.right, Depth.veryClose) ∧
    calculate_distance_score 5 0 = none :=
  C9_amended_zero_frame 10 0 5 (by norm_num) (by norm_num)

/-- The C4 tie-break scenario: one Red-light bucket with confidence 0.9
and one center-vehicle (Car) bucket with proximity 0.9 and confidence
0.9, both first seen this frame. -/
def tieRedKey : BucketKey := ⟨.redLight, .center, .far⟩

/-- The center-vehicle bucket key of the C4 scenario. -/
def tieCarKey : BucketKey := ⟨.car, .center, .veryClose⟩

/-- The grouped buckets of the C4 scenario, in evaluation order. -/
def tieGrouped : Grouped :=
  [(tieRedKey, [⟨.redLight, 0.9, .center, .far, 0.2⟩]),
   (tieCarKey, [⟨.car, 0.9, .center, .veryClose, 0.9⟩])]

/-- C4: the final selection of `generate_audio_message` is a stable
maximum — the head of the stable descending sort by priority is the
earliest appended candidate attaining the maximum priority — and in the
concrete frame containing both a Red-light bucket (confidence 0.9) and a
center vehicle bucket (proximity 0.9, confidence 0.9), both priority 10
and both passing `should_announce`, the emitted message is the Red-light
message, because traffic-light candidates are appended before vehicle
candidates. -/
theorem C4_stable_max_tie_break :
    (∀ l : List Cand,
      (sortDescBy (fun pm : Cand => pm.1) l).head? =
        spec_stable_max (fun pm : Cand => pm.1) l) ∧
    (collect_candidates tieGrouped 0 30 emptyDetState).1 =
      [(10, "Red light ahead. Stop and wait."),
       (10, "Watch out! A Car right in front of you! Stay where you are!")] ∧
    (generate_audio_message tieGrouped 0 30 emptyDetState).1 =
      some ("Red light ahead. Stop and wait.") := by
  refine ⟨fun l => head?_sortDescBy _ l, ?_, ?_⟩ <;>
    norm_num +decide [generate_audio_message, collect_candidates, traffic_stage, traffic_step,
      zebra_scan, zone_lists, zone_step, center_stage, left_stage, right_stage,
      zebra_stage, people_stage, should_announce, sortDescBy, insertDescBy,
      emptyDetState, DetState.update, tieGrouped, tieRedKey, tieCarKey,
      VEHICLE_CLASSES, TRAFFIC_LIGHTS, ZEBRA_CROSSING, CONFIDENCE_THRESHOLD,
      FRAME_GROUPING_WINDOW, Lbl.name, List.find?]

/-- C1: `generate_audio_message` emits at most one guidance message per
frame — the result is `none` exactly when no candidate was produced this
frame, and otherwise it is exactly one of the candidate message strings. -/
theorem C1_at_most_one_message_per_frame :
    ∀ (g : Grouped) (frame : ℤ) (fps : ℚ) (st : DetState),
      (generate_audio_message g frame fps st).1.toList.length ≤ 1 ∧
      ((generate_audio_message g frame fps st).1 = none ↔
        (collect_candidates g frame fps st).1 = []) ∧
      (generate_audio_message g frame fps st).1.elim True
        (fun m => m ∈ (collect_candidates g frame fps st).1.map Prod.snd) := by
  intro g frame fps st
  unfold generate_audio_message
  cases h : sortDescBy (fun pm : Cand => pm.1) (collect_candidates g frame fps st).1 with
  | nil =>
    have hnil : (collect_candidates g frame fps st).1 = [] :=
      (sortDescBy_eq_nil_iff _ _).mp h
    simp [h, hnil, sortDescBy, Option.elim]
  | cons top rest =>
    have hmem : top ∈ (collect_candidates g frame fps st).1 := by
      have : top ∈ sortDescBy (fun pm : Cand => pm.1)
          (collect_candidates g frame fps st).1 := by
        rw [h]; exact List.mem_cons_self top rest
      exact (mem_sortDescBy _ _ _).mp this
    have hne : (collect_candidates g frame fps st).1 ≠ [] := by
      intro hc
      rw [hc] at h
      simp [sortDescBy] at h
    simp [h, hne, Option.elim]
    exact ⟨top.1, hmem⟩

/-- Reading `detection_state[key]` right after `detection_state[key] = a`. -/
lemma DetState.update_self (st : DetState) (key : BucketKey) (a : AnnState) :
    (st.update key a) key = some a := by
  simp [DetState.update]

/-- The frames at which `should_announce` grants `key`, over a session
that queries `key` at the given sequence of frame indices. -/
def announce_trace (key : BucketKey) : List ℤ → DetState → List ℤ
  | [], _ => []
  | f :: fs, st =>
    let sa := should_announce key f st
    (if sa.1 then [f] else []) ++ announce_trace key fs sa.2

/-- Once `key` is tracked with last-announced frame `a.last_announced`,
every later grant is at least `FRAME_GROUPING_WINDOW` frames after it,
and successive grants are pairwise separated by at least the window. -/
lemma announce_trace_bounded (key : BucketKey) :
    ∀ (fs : List ℤ) (st : DetState) (a : AnnState), st key = some a →
      (∀ x ∈ announce_trace key fs st,
        FRAME_GROUPING_WINDOW ≤ x - a.last_announced) ∧
      List.Pairwise (fun x y => FRAME_GROUPING_WINDOW ≤ y - x)
        (announce_trace key fs st) := by
  have hW : (0 : ℤ) ≤ FRAME_GROUPING_WINDOW := by norm_num [FRAME_GROUPING_WINDOW]
  intro fs
  induction fs with
  | nil => intro st a h; simp [announce_trace]
  | cons f fs ih =>
    intro st a h
    by_cases hg : FRAME_GROUPING_WINDOW ≤ f - a.last_announced
    · have hstep : should_announce key f st =
          (true, st.update key ⟨a.first_frame, f, f, a.count + 1⟩) := by
        simp [should_announce, h, hg]
      have hnext := ih (st.update key ⟨a.first_frame, f, f, a.count + 1⟩)
        ⟨a.first_frame, f, f, a.count + 1⟩ (DetState.update_self st key _)
      have htr : announce_trace key (f :: fs) st =
          f :: announce_trace key fs (st.update key ⟨a.first_frame, f, f, a.count + 1⟩) := by
        simp [announce_trace, hstep]
      rw [htr]
      constructor
      · intro x hx
        rcases List.mem_cons.mp hx with hx | hx
        · exact hx ▸ hg
        · have := hnext.1 x hx
          simp only at this
          linarith
      · refine List.pairwise_cons.mpr ⟨?_, hnext.2⟩
        intro x hx
        exact hnext.1 x hx
    · have hstep : should_announce key f st =
          (false, st.update key ⟨a.first_frame, f, a.last_announced, a.count + 1⟩) := by
        simp [should_announce, h, hg]
      have hnext := ih (st.update key ⟨a.first_frame, f, a.last_announced, a.count + 1⟩)
        ⟨a.first_frame, f, a.last_announced, a.count + 1⟩ (DetState.update_self st key _)
      have htr : announce_trace key (f :: fs) st =
          announce_trace key fs
            (st.update key ⟨a.first_frame, f, a.last_announced, a.count + 1⟩) := by
        simp [announce_trace, hstep]
      rw [htr]
      exact ⟨fun x hx => hnext.1 x hx, hnext.2⟩

/-- C2: `should_announce` grants an unseen key unconditionally (creating
its state), grants a seen key exactly when
`current_frame - last_announced ≥ FRAME_GROUPING_WINDOW = 120` (advancing
`last_announced` only then), and consequently over any session the frames
at which a key is granted are pairwise at least 120 frames apart (the
first grant having no predecessor constraint). -/
theorem C2_reannouncement_window :
    (∀ (key : BucketKey) (f : ℤ) (st : DetState), st key = none →
      (should_announce key f st).1 = true ∧
      (should_announce key f st).2 key = some ⟨f, f, f, 1⟩) ∧
    (∀ (key : BucketKey) (f : ℤ) (st : DetState) (a : AnnState), st key = some a →
      ((should_announce key f st).1 = true ↔
        FRAME_GROUPING_WINDOW ≤ f - a.last_announced) ∧
      (should_announce key f st).2 key = some
        (if FRAME_GROUPING_WINDOW ≤ f - a.last_announced then
          ⟨a.first_frame, f, f, a.count + 1⟩
        else ⟨a.first_frame, f, a.last_announced, a.count + 1⟩)) ∧
    (∀ (key : BucketKey) (fs : List ℤ) (st : DetState), st key = none →
      List.Pairwise (fun x y => FRAME_GROUPING_WINDOW ≤ y - x)
        (announce_trace key fs st)) := by
  refine ⟨?_, ?_, ?_⟩
  · intro key f st h
    constructor
    · simp [should_announce, h]
    · simp [should_announce, h, DetState.update_self]
  · intro key f st a h
    by_cases hg : FRAME_GROUPING_WINDOW ≤ f - a.last_announced
    · constructor
      · simp [should_announce, h, hg]
      · simp [should_announce, h, hg, DetState.update_self]
    · constructor
      · simp [should_announce, h, hg]
      · simp [should_announce, h, hg, DetState.update_self]
  · intro key fs st h
    cases fs with
    | nil => simp [announce_trace]
    | cons f fs =>
      have hstep : should_announce key f st =
          (true, st.update key ⟨f, f, f, 1⟩) := by
        simp [should_announce, h]
      have hnext := announce_trace_bounded key fs
        (st.update key ⟨f, f, f, 1⟩) ⟨f, f, f, 1⟩ (DetState.update_self st key _)
      have htr : announce_trace key (f :: fs) st =
          f :: announce_trace key fs (st.update key ⟨f, f, f, 1⟩) := by
        simp [announce_trace, hstep]
      rw [htr]
      refine List.pairwise_cons.mpr ⟨?_, hnext.2⟩
      intro x hx
      exact hnext.1 x hx

/-- Witness for C2: a fresh key granted at frame 5; a tracked key with
`last_announced = 0` queried at frame 50 (denied) and the full trace of a
session querying one key at frames 0, 50, 130. -/
theorem C2_reannouncement_window_witness :
    ((should_announce ⟨.car, .left, .far⟩ 5 emptyDetState).1 = true ∧
      (should_announce ⟨.car, .left, .far⟩ 5 emptyDetState).2
        ⟨.car, .left, .far⟩ = some ⟨5, 5, 5, 1⟩) ∧
    (((should_announce ⟨.car, .left, .far⟩ 50
        (emptyDetState.update ⟨.car, .left, .far⟩ ⟨0, 0, 0, 1⟩)).1 = true ↔
      FRAME_GROUPING_WINDOW ≤ 50 - (⟨0, 0, 0, 1⟩ : AnnState).last_announced) ∧
      (should_announce ⟨.car, .left, .far⟩ 50
        (emptyDetState.update ⟨.car, .left, .far⟩ ⟨0, 0, 0, 1⟩)).2
          ⟨.car, .left, .far⟩ = some
        (if FRAME_GROUPING_WINDOW ≤ 50 - (⟨0, 0, 0, 1⟩ : AnnState).last_announced then
          ⟨(⟨0, 0, 0, 1⟩ : AnnState).first_frame, 50, 50, (⟨0, 0, 0, 1⟩ : AnnState).count + 1⟩
        else ⟨(⟨0, 0, 0, 1⟩ : AnnState).first_frame, 50,
          (⟨0, 0, 0, 1⟩ : AnnState).last_announced, (⟨0, 0, 0, 1⟩ : AnnState).count + 1⟩)) ∧
    List.Pairwise (fun x y => FRAME_GROUPING_WINDOW ≤ y - x)
      (announce_trace ⟨.car, .left, .far⟩ [0, 50, 130] emptyDetState) :=
  ⟨C2_reannouncement_window.1 ⟨.car, .left, .far⟩ 5 emptyDetState rfl,
   C2_reannouncement_window.2.1 ⟨.car, .left, .far⟩ 50
     (emptyDetState.update ⟨.car, .left, .far⟩ ⟨0, 0, 0, 1⟩)
     ⟨0, 0, 0, 1⟩ (DetState.update_self emptyDetState ⟨.car, .left, .far⟩ ⟨0, 0, 0, 1⟩),
   C2_reannouncement_window.2.2 ⟨.car, .left, .far⟩ [0, 50, 130] emptyDetState rfl⟩

/-- A zebra-crossing bucket with confidence 0.8 (C5 scenarios). -/
def c5ZebraKey : BucketKey := ⟨.zebraCrossing, .center, .far⟩

/-- Zebra crossing detected alone (no vehicles), confidence 0.8. -/
def c5ZebraAlone : Grouped := [(c5ZebraKey, [⟨.zebraCrossing, 0.8, .center, .far, 0.2⟩])]

/-- Zebra crossing plus one far left vehicle (Car, confidence 0.9,
proximity 0.3 — no vehicle in any zone has proximity above 0.6). -/
def c5ZebraFarVehicle : Grouped :=
  [(c5ZebraKey, [⟨.zebraCrossing, 0.8, .center, .far, 0.2⟩]),
   (⟨.car, .left, .far⟩, [⟨.car, 0.9, .left, .far, 0.3⟩])]

/-- C5 counterexample: a frame with an eligible zebra crossing and one
vehicle of proximity 0.3 — no vehicle in any zone has proximity above
0.6, yet no priority-7 safe-to-cross candidate is produced (the candidate
list is empty and the frame emits nothing), because the source only emits
the safe message when the vehicle lists are completely empty. -/
theorem C5_counterexample :
    (collect_candidates c5ZebraFarVehicle 0 30 emptyDetState).1 = [] ∧
    (generate_audio_message c5ZebraFarVehicle 0 30 emptyDetState).1 = none := by
  constructor <;>
    norm_num +decide [generate_audio_message, collect_candidates, traffic_stage, traffic_step,
      zebra_scan, zone_lists, zone_step, center_stage, left_stage, right_stage,
      zebra_stage, people_stage, should_announce, sortDescBy, insertDescBy,
      emptyDetState, DetState.update, c5ZebraFarVehicle, c5ZebraKey,
      VEHICLE_CLASSES, TRAFFIC_LIGHTS, ZEBRA_CROSSING, CONFIDENCE_THRESHOLD,
      FRAME_GROUPING_WINDOW, Lbl.name, List.find?]

/-- C5 amended: for every frame, `collect_candidates` hands the zebra
stage the crossing found by `zebra_scan` (detected at or above the
confidence threshold) together with the sorted per-zone vehicle lists of
the frame; and for every frame index, crossing key, vehicle configuration and
accumulated state on which `should_announce` grants the key, the zebra
stage produces the priority-7 safe-to-cross candidate exactly in the case
that no vehicle bucket exists in any zone, and when vehicle buckets exist
it produces the priority-8 wait candidate exactly when some vehicle has
proximity above 0.6 — otherwise it produces no zebra candidate at all. In
particular a zebra crossing detected alone with confidence 0.8 yields the
priority-7 safe-to-cross message. -/
theorem C5_amended_zebra_vehicle_gating :
    (∀ (g : Grouped) (f : ℤ) (fps : ℚ) (st : DetState),
      collect_candidates g f fps st =
        people_stage f (zone_lists g).2.2.2
          (zebra_stage f (zebra_scan g)
            (sortDescBy (fun v : VehInfo => v.dist_score) (zone_lists g).2.2.1)
            (sortDescBy (fun v : VehInfo => v.dist_score) (zone_lists g).1)
            (sortDescBy (fun v : VehInfo => v.dist_score) (zone_lists g).2.1)
            (right_stage f (sortDescBy (fun v : VehInfo => v.dist_score) (zone_lists g).2.1)
              (left_stage f (sortDescBy (fun v : VehInfo => v.dist_score) (zone_lists g).1)
                (center_stage f (sortDescBy (fun v : VehInfo => v.dist_score) (zone_lists g).2.2.1)
                  (traffic_stage g f ([], st))))))) ∧
    (∀ (f : ℤ) (zkey : BucketKey) (acc : List Cand × DetState),
      (should_announce zkey f acc.2).1 = true →
      zebra_stage f (some zkey) [] [] [] acc =
        (acc.1 ++ [(7, "Zebra crossing in front of you. No vehicles nearby. You can cross now.")],
          (should_announce zkey f acc.2).2)) ∧
    (∀ (f : ℤ) (zkey : BucketKey) (vc vl vr : List VehInfo)
      (acc : List Cand × DetState),
      (should_announce zkey f acc.2).1 = true →
      ¬(vc = [] ∧ vl = [] ∧ vr = []) →
      (((zebra_stage f (some zkey) vc vl vr acc).1 =
          acc.1 ++ [(8, "Zebra crossing ahead, but vehicles are nearby. Wait for them to pass.")]) ↔
        ∃ v ∈ vc ++ vl ++ vr, v.dist_score > 0.6) ∧
      ((∀ v ∈ vc ++ vl ++ vr, v.dist_score ≤ 0.6) →
        (zebra_stage f (some zkey) vc vl vr acc).1 = acc.1)) ∧
    (collect_candidates c5ZebraAlone 0 30 emptyDetState).1 =
      [(7, "Zebra crossing in front of you. No vehicles nearby. You can cross now.")] ∧
    (generate_audio_message c5ZebraAlone 0 30 emptyDetState).1 =
      some ("Zebra crossing in front of you. No vehicles nearby. You can cross now.") := by
  refine ⟨?_, ?_, ?_, ?_, ?_⟩
  · intro g f fps st
    rfl
  · intro f zkey acc h
    unfold zebra_stage
    dsimp only
    rw [if_pos h, if_pos ⟨rfl, rfl, rfl⟩]
  · intro f zkey vc vl vr acc h hne
    have hne2 : vc ≠ [] ∨ vl ≠ [] ∨ vr ≠ [] := by tauto
    have hstep : ∀ (b : Bool),
        (vc ++ vl ++ vr).any (fun v => decide (v.dist_score > 0.6)) = b →
        zebra_stage f (some zkey) vc vl vr acc =
          (if b then
            (acc.1 ++ [(8, "Zebra crossing ahead, but vehicles are nearby. Wait for them to pass.")],
              (should_announce zkey f acc.2).2)
          else (acc.1, (should_announce zkey f acc.2).2)) := by
      intro b hb
      unfold zebra_stage
      dsimp only
      rw [if_pos h, if_neg hne, if_pos hne2, hb]
    constructor
    · constructor
      · intro heq
        cases hany : (vc ++ vl ++ vr).any (fun v => decide (v.dist_score > 0.6)) with
        | true =>
          obtain ⟨v, hv, hp⟩ := List.any_eq_true.mp hany
          exact ⟨v, hv, by simpa using hp⟩
        | false =>
          exfalso
          rw [hstep false hany] at heq
          simp at heq
      · rintro ⟨v, hv, hp⟩
        have hany : (vc ++ vl ++ vr).any (fun v => decide (v.dist_score > 0.6)) = true :=
          List.any_eq_true.mpr ⟨v, hv, by simpa using hp⟩
        rw [hstep true hany]
        rfl
    · intro hall
      have hany : (vc ++ vl ++ vr).any (fun v => decide (v.dist_score > 0.6)) = false := by
        rw [List.any_eq_false]
        intro v hv
        simpa using not_lt.mpr (hall v hv)
      rw [hstep false hany]
      rfl
  all_goals
    norm_num +decide [generate_audio_message, collect_candidates, traffic_stage, traffic_step,
      zebra_scan, zone_lists, zone_step, center_stage, left_stage, right_stage,
      zebra_stage, people_stage, should_announce, sortDescBy, insertDescBy,
      emptyDetState, DetState.update, c5ZebraAlone, c5ZebraKey,
      VEHICLE_CLASSES, TRAFFIC_LIGHTS, ZEBRA_CROSSING, CONFIDENCE_THRESHOLD,
      FRAME_GROUPING_WINDOW, Lbl.name, List.find?]

/-- A left-zone vehicle record with proximity 0.65, for the C5 witness. -/
def c5VehClose : VehInfo := ⟨.car, .left, .approaching, 0.65, 1, ⟨.car, .left, .approaching⟩⟩

/-- Witness for the amended C5: the empty-zone safe-to-cross case and the
one-vehicle wait/no-candidate gating, both at frame 0 on a fresh state
with the crossing granted. -/
theorem C5_amended_zebra_vehicle_gating_witness :
    (zebra_stage 0 (some c5ZebraKey) [] [] [] ([], emptyDetState) =
      (([] : List Cand) ++
        [(7, "Zebra crossing in front of you. No vehicles nearby. You can cross now.")],
        (should_announce c5ZebraKey 0 emptyDetState).2)) ∧
    ((((zebra_stage 0 (some c5ZebraKey) [] [c5VehClose] [] ([], emptyDetState)).1 =
        ([] : List Cand) ++
          [(8, "Zebra crossing ahead, but vehicles are nearby. Wait for them to pass.")]) ↔
      ∃ v ∈ ([] : List VehInfo) ++ [c5VehClose] ++ [], v.dist_score > 0.6) ∧
     ((∀ v ∈ ([] : List VehInfo) ++ [c5VehClose] ++ [], v.dist_score ≤ 0.6) →
       (zebra_stage 0 (some c5ZebraKey) [] [c5VehClose] [] ([], emptyDetState)).1 =
         ([] : List Cand))) :=
  ⟨C5_amended_zebra_vehicle_gating.2.1 0 c5ZebraKey ([], emptyDetState) rfl,
   C5_amended_zebra_vehicle_gating.2.2.1 0 c5ZebraKey [] [c5VehClose] []
     ([], emptyDetState) rfl (by simp)⟩

/-- A grouped frame all of whose bucket representatives fall strictly
below the confidence threshold. -/
def RepBelowThreshold (g : Grouped) : Prop :=
  ∀ kv ∈ g, ∀ d : Det, kv.2.head? = some d → d.conf < CONFIDENCE_THRESHOLD

lemma traffic_step_below (f : ℤ) (acc : List Cand × DetState)
    (kv : BucketKey × List Det)
    (h : ∀ d : Det, kv.2.head? = some d → d.conf < CONFIDENCE_THRESHOLD) :
    traffic_step f acc kv = acc := by
  unfold traffic_step
  split
  · cases hh : kv.2.head? with
    | none => rfl
    | some det => simp [h det hh]
  · rfl

lemma traffic_stage_below (f : ℤ) :
    ∀ (g : Grouped) (acc : List Cand × DetState), RepBelowThreshold g →
      traffic_stage g f acc = acc := by
  intro g
  induction g with
  | nil => intro acc _; rfl
  | cons kv g ih =>
    intro acc h
    have hs : traffic_step f acc kv = acc :=
      traffic_step_below f acc kv (h kv (List.mem_cons_self kv g))
    have hrest : RepBelowThreshold g := fun kv2 h2 => h kv2 (List.mem_cons_of_mem kv h2)
    simp only [traffic_stage, List.foldl_cons, hs]
    exact ih acc hrest

lemma zone_step_below (acc : List VehInfo × List VehInfo × List VehInfo × List PersonInfo)
    (kv : BucketKey × List Det)
    (h : ∀ d : Det, kv.2.head? = some d → d.conf < CONFIDENCE_THRESHOLD) :
    zone_step acc kv = acc := by
  unfold zone_step
  cases hh : kv.2.head? with
  | none => rfl
  | some det => simp [h det hh]

lemma zone_lists_below :
    ∀ (g : Grouped), RepBelowThreshold g → zone_lists g = ([], [], [], []) := by
  have aux : ∀ (g : Grouped)
      (acc : List VehInfo × List VehInfo × List VehInfo × List PersonInfo),
      RepBelowThreshold g → g.foldl zone_step acc = acc := by
    intro g
    induction g with
    | nil => intro acc _; rfl
    | cons kv g ih =>
      intro acc h
      have hs : zone_step acc kv = acc :=
        zone_step_below acc kv (h kv (List.mem_cons_self kv g))
      simp only [List.foldl_cons, hs]
      exact ih acc (fun kv2 h2 => h kv2 (List.mem_cons_of_mem kv h2))
  intro g h
  exact aux g ([], [], [], []) h

lemma zebra_scan_below (g : Grouped) (h : RepBelowThreshold g) :
    zebra_scan g = none := by
  unfold zebra_scan
  cases hf : g.find? (fun kv =>
      match kv.2.head? with
      | some d => decide (d.label ∈ ZEBRA_CROSSING)
      | none => false) with
  | none => rfl
  | some kv =>
    have hkv : kv ∈ g := List.mem_of_find?_eq_some hf
    cases hh : kv.2.head? with
    | none => simp [hh]
    | some d =>
      have hc := h kv hkv d hh
      simp [hh, if_neg (not_le.mpr hc)]

/-- C7 counterexample: a bucket strictly below the confidence threshold
is not excluded from the zebra stage — a frame holding a 0.5-confidence
zebra bucket followed by a 0.8-confidence zebra bucket emits nothing
(the scan breaks at the first, ineligible crossing), while the same frame
without the below-threshold bucket emits the safe-to-cross message, so
the below-threshold bucket changes the outcome of a stage. -/
theorem C7_counterexample :
    (generate_audio_message
      [(⟨.zebraCrossing, .left, .far⟩, [⟨.zebraCrossing, 0.5, .left, .far, 0.2⟩]),
       (⟨.zebraCrossing, .center, .far⟩, [⟨.zebraCrossing, 0.8, .center, .far, 0.2⟩])]
      0 30 emptyDetState).1 = none ∧
    (generate_audio_message
      [(⟨.zebraCrossing, .center, .far⟩, [⟨.zebraCrossing, 0.8, .center, .far, 0.2⟩])]
      0 30 emptyDetState).1 =
      some ("Zebra crossing in front of you. No vehicles nearby. You can cross now.") := by
  constructor <;>
    norm_num +decide [generate_audio_message, collect_candidates, traffic_stage, traffic_step,
      zebra_scan, zone_lists, zone_step, center_stage, left_stage, right_stage,
      zebra_stage, people_stage, should_announce, sortDescBy, insertDescBy,
      emptyDetState, DetState.update,
      VEHICLE_CLASSES, TRAFFIC_LIGHTS, ZEBRA_CROSSING, CONFIDENCE_THRESHOLD,
      FRAME_GROUPING_WINDOW, Lbl.name, List.find?]

/-- C7 amended: a bucket whose representative confidence is strictly
below the threshold 0.7 never itself contributes a candidate message — a
frame all of whose buckets are below threshold yields no message and
leaves the announcement state untouched — and a bucket with confidence
exactly 0.7 is eligible at every stage (traffic light, center vehicle,
zebra crossing, person all emit at confidence exactly 0.7). However a
below-threshold zebra bucket is still inspected by the zebra scan and can
suppress a later eligible crossing (see the counterexample). -/
theorem C7_amended_confidence_threshold :
    (∀ (g : Grouped) (f : ℤ) (fps : ℚ) (st : DetState), RepBelowThreshold g →
      generate_audio_message g f fps st = (none, st)) ∧
    (generate_audio_message
      [(⟨.redLight, .center, .far⟩, [⟨.redLight, 0.7, .center, .far, 0.2⟩])]
      0 30 emptyDetState).1 = some ("Red light ahead. Stop and wait.") ∧
    (generate_audio_message
      [(⟨.car, .center, .veryClose⟩, [⟨.car, 0.7, .center, .veryClose, 0.8⟩])]
      0 30 emptyDetState).1 =
      some ("Watch out! A Car right in front of you! Stay where you are!") ∧
    (generate_audio_message
      [(⟨.zebraCrossing, .center, .far⟩, [⟨.zebraCrossing, 0.7, .center, .far, 0.2⟩])]
      0 30 emptyDetState).1 =
      some ("Zebra crossing in front of you. No vehicles nearby. You can cross now.") ∧
    (generate_audio_message
      [(⟨.person, .center, .veryClose⟩, [⟨.person, 0.7, .center, .veryClose, 0.8⟩])]
      0 30 emptyDetState).1 = some ("Person ahead.") := by
  refine ⟨?_, ?_, ?_, ?_, ?_⟩
  · intro g f fps st h
    have h1 : traffic_stage g f ([], st) = ([], st) := traffic_stage_below f g ([], st) h
    have h2 : zebra_scan g = none := zebra_scan_below g h
    have h3 : zone_lists g = ([], [], [], []) := zone_lists_below g h
    unfold generate_audio_message collect_candidates
    rw [h1, h2, h3]
    rfl
  all_goals
    norm_num +decide [generate_audio_message, collect_candidates, traffic_stage, traffic_step,
      zebra_scan, zone_lists, zone_step, center_stage, left_stage, right_stage,
      zebra_stage, people_stage, should_announce, sortDescBy, insertDescBy,
      emptyDetState, DetState.update,
      VEHICLE_CLASSES, TRAFFIC_LIGHTS, ZEBRA_CROSSING, CONFIDENCE_THRESHOLD,
      FRAME_GROUPING_WINDOW, Lbl.name, List.find?]

/-- Witness for C7 at a single below-threshold red-light bucket. -/
theorem C7_amended_confidence_threshold_witness :
    generate_audio_message
      [(⟨.redLight, .center, .far⟩, [⟨.redLight, 0.5, .center, .far, 0.2⟩])]
      0 30 emptyDetState = (none, emptyDetState) :=
  C7_amended_confidence_threshold.1 _ 0 30 emptyDetState (by
    intro kv hkv d hd
    simp only [List.mem_singleton] at hkv
    subst hkv
    simp only [List.head?_cons, Option.some.injEq] at hd
    subst hd
    norm_num [CONFIDENCE_THRESHOLD])

/-- Relation between the announcement state before and after one frame at
index `f`: every tracked key either keeps its `last_announced` or has it
set to the current frame. -/
def la_preserved (f : ℤ) (st st2 : DetState) : Prop :=
  ∀ (k : BucketKey) (a2 : AnnState), st2 k = some a2 →
    (∃ a : AnnState, st k = some a ∧ a2.last_announced = a.last_announced) ∨
    a2.last_announced = f

lemma la_preserved_refl (f : ℤ) (st : DetState) : la_preserved f st st :=
  fun _ a2 h => Or.inl ⟨a2, h, rfl⟩

lemma la_preserved_trans {f : ℤ} {st1 st2 st3 : DetState}
    (h12 : la_preserved f st1 st2) (h23 : la_preserved f st2 st3) :
    la_preserved f st1 st3 := by
  intro k a3 h3
  rcases h23 k a3 h3 with ⟨a2, h2, he⟩ | he
  · rcases h12 k a2 h2 with ⟨a1, h1, he1⟩ | he1
    · exact Or.inl ⟨a1, h1, he.trans he1⟩
    · exact Or.inr (he.trans he1)
  · exact Or.inr he

/-- Looking up a different key after a dict update. -/
lemma DetState.update_other (st : DetState) (key k : BucketKey) (a : AnnState)
    (h : k ≠ key) : (st.update key a) k = st k := by
  simp [DetState.update, h]

lemma la_preserved_should_announce (key : BucketKey) (f : ℤ) (st : DetState) :
    la_preserved f st (should_announce key f st).2 := by
  intro k a2 h2
  by_cases hk : k = key
  · subst hk
    unfold should_announce at h2
    cases hst : st k with
    | none =>
      rw [hst] at h2
      dsimp only at h2
      simp only [DetState.update_self, Option.some.injEq] at h2
      exact Or.inr (by rw [← h2])
    | some a =>
      rw [hst] at h2
      dsimp only at h2
      by_cases hg : FRAME_GROUPING_WINDOW ≤ f - a.last_announced
      · rw [if_pos hg] at h2
        simp only [DetState.update_self, Option.some.injEq] at h2
        exact Or.inr (by rw [← h2])
      · rw [if_neg hg] at h2
        simp only [DetState.update_self, Option.some.injEq] at h2
        exact Or.inl ⟨a, rfl, by rw [← h2]⟩
  · have hsame : (should_announce key f st).2 k = st k := by
      unfold should_announce
      cases hst : st key with
      | none =>
        dsimp only
        exact DetState.update_other st key k _ hk
      | some a =>
        dsimp only
        split_ifs <;> exact DetState.update_other st key k _ hk
    rw [hsame] at h2
    exact Or.inl ⟨a2, h2, rfl⟩

lemma la_traffic_step (f : ℤ) (acc : List Cand × DetState)
    (kv : BucketKey × List Det) :
    la_preserved f acc.2 (traffic_step f acc kv).2 := by
  unfold traffic_step
  split
  · cases kv.2.head? with
    | none => exact la_preserved_refl f acc.2
    | some det =>
      dsimp only
      split_ifs <;>
        first
        | exact la_preserved_refl f acc.2
        | exact la_preserved_should_announce kv.1 f acc.2
  · exact la_preserved_refl f acc.2

lemma la_traffic_stage (f : ℤ) :
    ∀ (g : Grouped) (acc : List Cand × DetState),
      la_preserved f acc.2 (traffic_stage g f acc).2 := by
  intro g
  induction g with
  | nil => intro acc; exact la_preserved_refl f acc.2
  | cons kv g ih =>
    intro acc
    have h1 := la_traffic_step f acc kv
    have h2 := ih (traffic_step f acc kv)
    simp only [traffic_stage, List.foldl_cons] at h2 ⊢
    exact la_preserved_trans h1 h2

lemma la_center_stage (f : ℤ) (vs : List VehInfo) (acc : List Cand × DetState) :
    la_preserved f acc.2 (center_stage f vs acc).2 := by
  unfold center_stage
  cases vs with
  | nil => exact la_preserved_refl f acc.2
  | cons v _ =>
    dsimp only
    split_ifs <;>
      first
      | exact la_preserved_refl f acc.2
      | exact la_preserved_should_announce v.key f acc.2

lemma la_left_stage (f : ℤ) (vs : List VehInfo) (acc : List Cand × DetState) :
    la_preserved f acc.2 (left_stage f vs acc).2 := by
  unfold left_stage
  cases vs with
  | nil => exact la_preserved_refl f acc.2
  | cons v _ =>
    dsimp only
    split_ifs <;>
      first
      | exact la_preserved_refl f acc.2
      | exact la_preserved_should_announce v.key f acc.2

lemma la_right_stage (f : ℤ) (vs : List VehInfo) (acc : List Cand × DetState) :
    la_preserved f acc.2 (right_stage f vs acc).2 := by
  unfold right_stage
  cases vs with
  | nil => exact la_preserved_refl f acc.2
  | cons v _ =>
    dsimp only
    split_ifs <;>
      first
      | exact la_preserved_refl f acc.2
      | exact la_preserved_should_announce v.key f acc.2

lemma la_zebra_stage (f : ℤ) (zres : Option BucketKey)
    (vc vl vr : List VehInfo) (acc : List Cand × DetState) :
    la_preserved f acc.2 (zebra_stage f zres vc vl vr acc).2 := by
  unfold zebra_stage
  cases zres with
  | none => exact la_preserved_refl f acc.2
  | some zkey =>
    dsimp only
    split_ifs <;>
      first
      | exact la_preserved_refl f acc.2
      | exact la_preserved_should_announce zkey f acc.2

lemma la_people_stage (f : ℤ) (ps : List PersonInfo) (acc : List Cand × DetState) :
    la_preserved f acc.2 (people_stage f ps acc).2 := by
  unfold people_stage
  cases sortDescBy (fun p : PersonInfo => p.dist_score) ps with
  | nil => exact la_preserved_refl f acc.2
  | cons p _ =>
    dsimp only
    split_ifs <;>
      first
      | exact la_preserved_refl f acc.2
      | exact la_preserved_should_announce p.key f acc.2

/-- The state returned by `generate_audio_message` is the state after
candidate collection (the final selection does not touch the dict). -/
lemma generate_state_eq (g : Grouped) (f : ℤ) (fps : ℚ) (st : DetState) :
    (generate_audio_message g f fps st).2 = (collect_candidates g f fps st).2 := by
  unfold generate_audio_message
  cases h : sortDescBy (fun pm : Cand => pm.1) (collect_candidates g f fps st).1 <;>
    simp [h]

lemma la_collect_candidates (g : Grouped) (f : ℤ) (fps : ℚ) (st : DetState) :
    la_preserved f st (collect_candidates g f fps st).2 := by
  unfold collect_candidates
  exact la_preserved_trans (la_traffic_stage f g ([], st))
    (la_preserved_trans (la_center_stage f _ _)
      (la_preserved_trans (la_left_stage f _ _)
        (la_preserved_trans (la_right_stage f _ _)
          (la_preserved_trans (la_zebra_stage f _ _ _ _ _) (la_people_stage f _ _)))))

/-- The C3 counterexample frames: a center Car (proximity 0.8) emitted
alone at frame 0, then the same bucket together with a Red-light bucket
at frame 120. -/
def c3CarKey : BucketKey := ⟨.car, .center, .veryClose⟩

/-- Frame 0 of the C3 counterexample session. -/
def c3Frame0 : Grouped := [(c3CarKey, [⟨.car, 0.9, .center, .veryClose, 0.8⟩])]

/-- Frame 120 of the C3 counterexample session. -/
def c3Frame1 : Grouped :=
  [(⟨.redLight, .center, .far⟩, [⟨.redLight, 0.9, .center, .far, 0.2⟩]),
   (c3CarKey, [⟨.car, 0.9, .center, .veryClose, 0.8⟩])]

/-- C3 counterexample: the Car bucket is emitted at frame 0
(`last_announced = 0`); at frame 120 the frame's single output is the
Red-light message, yet the Car bucket's `last_announced` advances to 120
— `last_announced` advanced on a frame where that key's message was not
emitted, because its candidate lost the final maximum-priority
selection. -/
theorem C3_counterexample :
    (generate_audio_message c3Frame0 0 30 emptyDetState).1 =
      some ("Watch out! A Car right in front of you! Stay where you are!") ∧
    (generate_audio_message c3Frame1 120 30
      (generate_audio_message c3Frame0 0 30 emptyDetState).2).1 =
      some ("Red light ahead. Stop and wait.") ∧
    (generate_audio_message c3Frame1 120 30
      (generate_audio_message c3Frame0 0 30 emptyDetState).2).2 c3CarKey =
      some ⟨0, 120, 120, 2⟩ := by
  refine ⟨?_, ?_, ?_⟩ <;>
    norm_num +decide [generate_audio_message, collect_candidates, traffic_stage, traffic_step,
      zebra_scan, zone_lists, zone_step, center_stage, left_stage, right_stage,
      zebra_stage, people_stage, should_announce, sortDescBy, insertDescBy,
      emptyDetState, DetState.update, c3Frame0, c3Frame1, c3CarKey,
      VEHICLE_CLASSES, TRAFFIC_LIGHTS, ZEBRA_CROSSING, CONFIDENCE_THRESHOLD,
      FRAME_GROUPING_WINDOW, Lbl.name, List.find?]

/-- C3 amended: during one frame at index `f`, every key's
`last_announced` either keeps its previous value or is set to `f`; it is
set to `f` whenever `should_announce` grants the key during the frame's
evaluation — including for candidates subsequently discarded (a far-band
vehicle yielding no message, or a candidate losing the final selection,
see the counterexample) — not only when the key's message is emitted. -/
theorem C3_amended_last_announced (g : Grouped) (f : ℤ) (fps : ℚ)
    (st : DetState) (k : BucketKey) (a2 : AnnState)
    (h : (generate_audio_message g f fps st).2 k = some a2) :
    (∃ a : AnnState, st k = some a ∧ a2.last_announced = a.last_announced) ∨
    a2.last_announced = f := by
  rw [generate_state_eq] at h
  exact la_collect_candidates g f fps st k a2 h

/-- Witness for the amended C3: the Car bucket of the counterexample
session at frame 120 has its `last_announced` set to the current
frame. -/
theorem C3_amended_last_announced_witness :
    (∃ a : AnnState,
      (generate_audio_message c3Frame0 0 30 emptyDetState).2 c3CarKey = some a ∧
      (⟨0, 120, 120, 2⟩ : AnnState).last_announced = a.last_announced) ∨
    (⟨0, 120, 120, 2⟩ : AnnState).last_announced = 120 :=
  C3_amended_last_announced c3Frame1 120 30
    (generate_audio_message c3Frame0 0 30 emptyDetState).2 c3CarKey
    ⟨0, 120, 120, 2⟩
    (by
      norm_num +decide [generate_audio_message, collect_candidates, traffic_stage, traffic_step,
        zebra_scan, zone_lists, zone_step, center_stage, left_stage, right_stage,
        zebra_stage, people_stage, should_announce, sortDescBy, insertDescBy,
        emptyDetState, DetState.update, c3Frame0, c3Frame1, c3CarKey,
        VEHICLE_CLASSES, TRAFFIC_LIGHTS, ZEBRA_CROSSING, CONFIDENCE_THRESHOLD,
        FRAME_GROUPING_WINDOW, Lbl.name, List.find?])

/-- C8: `run_detection` never propagates a failure to its caller (it is a
total function into `List String`): when the video source cannot be
opened it returns exactly the single sentinel message and no partial log,
and when a per-frame error occurs on a sampled frame the loop appends one
diagnostic message to whatever log has accumulated and terminates the
session, returning everything accumulated so far. -/
theorem C8_failure_semantics :
    (∀ (frame_w frame_h fps0 : ℚ) (frames : List FrameOutcome),
      run_detection false frame_w frame_h fps0 frames = [OPEN_ERROR_MESSAGE]) ∧
    (∀ (interval : ℕ) (fps frame_w frame_h : ℚ) (e : String)
      (rest : List FrameOutcome) (frame_count : ℕ) (st : DetState)
      (audio_log : List String),
      frame_count % interval = 0 →
      run_detection_loop interval fps frame_w frame_h
        (Except.error e :: rest) frame_count st audio_log =
        audio_log ++ [processing_error_message e]) := by
  constructor
  · intro frame_w frame_h fps0 frames
    unfold run_detection
    rfl
  · intro interval fps frame_w frame_h e rest frame_count st audio_log h
    unfold run_detection_loop
    simp [h]

/-- Witness for C8: an unopenable source, and a first-frame error with an
empty accumulated log. -/
theorem C8_failure_semantics_witness :
    run_detection false 900 600 30 [] = [OPEN_ERROR_MESSAGE] ∧
    run_detection_loop 1 30 900 600 [Except.error "bad frame"] 0 emptyDetState [] =
      [] ++ [processing_error_message "bad frame"] :=
  ⟨C8_failure_semantics.1 900 600 30 [],
   C8_failure_semantics.2 1 30 900 600 "bad frame" [] 0 emptyDetState [] rfl⟩

lemma append_opt_length (audio_log : List String) (m : Option String) :
    (append_opt audio_log m).length ≤ audio_log.length + 1 := by
  cases m <;> simp [append_opt]

/-- One sampled successful frame of the `run_detection` loop keeps the
log within the cap: either the post-append log already holds 12 entries
and is returned, or the loop continues on a log of at most 11 entries. -/
lemma run_detection_loop_step_bound (interval : ℕ) (fps frame_w frame_h : ℚ)
    (rest : List FrameOutcome) (frame_count : ℕ) (st2 : DetState)
    (audio_log : List String) (m : Option String)
    (h : audio_log.length ≤ 11)
    (ih : ∀ (fc : ℕ) (st : DetState) (log : List String), log.length ≤ 11 →
      (run_detection_loop interval fps frame_w frame_h rest fc st log).length ≤ 12) :
    (if 12 ≤ (append_opt audio_log m).length then append_opt audio_log m
     else run_detection_loop interval fps frame_w frame_h rest (frame_count + 1)
       st2 (append_opt audio_log m)).length ≤ 12 := by
  have hl : (append_opt audio_log m).length ≤ 12 :=
    le_trans (append_opt_length audio_log m) (by omega)
  by_cases h12 : 12 ≤ (append_opt audio_log m).length
  · rw [if_pos h12]
    exact hl
  · rw [if_neg h12]
    exact ih _ _ _ (by omega)

lemma run_detection_loop_length_le (interval : ℕ) (fps frame_w frame_h : ℚ) :
    ∀ (frames : List FrameOutcome) (fc : ℕ) (st : DetState) (log : List String),
      log.length ≤ 11 →
      (run_detection_loop interval fps frame_w frame_h frames fc st log).length ≤ 12 := by
  intro frames
  induction frames with
  | nil =>
    intro fc st log h
    unfold run_detection_loop
    omega
  | cons f rest ih =>
    intro fc st log h
    unfold run_detection_loop
    by_cases hs : fc % interval ≠ 0
    · rw [if_pos hs]
      exact ih _ _ _ h
    · rw [if_neg hs]
      cases f with
      | error e => simp; omega
      | ok dets =>
        exact run_detection_loop_step_bound interval fps frame_w frame_h rest fc
          (if dets.isEmpty then ((none : Option String), st)
            else generate_audio_message (group_detections dets frame_w frame_h)
              (fc : ℤ) fps st).2
          log
          (if dets.isEmpty then ((none : Option String), st)
            else generate_audio_message (group_detections dets frame_w frame_h)
              (fc : ℤ) fps st).1
          h ih

/-- Thirteen frames, each holding one traffic-light bucket with a key
distinct from every other frame (so `should_announce` grants each one),
at confidence 0.9. -/
def capFrames13 : List FrameOutcome :=
  [Except.ok [⟨.redLight, 0.9, .left, .far, 0.1⟩],
   Except.ok [⟨.redLight, 0.9, .center, .far, 0.1⟩],
   Except.ok [⟨.redLight, 0.9, .right, .far, 0.1⟩],
   Except.ok [⟨.redLight, 0.9, .left, .approaching, 0.1⟩],
   Except.ok [⟨.redLight, 0.9, .center, .approaching, 0.1⟩],
   Except.ok [⟨.redLight, 0.9, .right, .approaching, 0.1⟩],
   Except.ok [⟨.redLight, 0.9, .left, .veryClose, 0.1⟩],
   Except.ok [⟨.redLight, 0.9, .center, .veryClose, 0.1⟩],
   Except.ok [⟨.redLight, 0.9, .right, .veryClose, 0.1⟩],
   Except.ok [⟨.greenLight, 0.9, .left, .far, 0.1⟩],
   Except.ok [⟨.greenLight, 0.9, .center, .far, 0.1⟩],
   Except.ok [⟨.greenLight, 0.9, .right, .far, 0.1⟩],
   Except.ok [⟨.yellowLight, 0.9, .left, .far, 0.1⟩]]

lemma sample_interval_of_three : sample_interval_of 3 = 1 := by
  norm_num [sample_interval_of, pythonRound, TARGET_FPS]

set_option maxRecDepth 100000 in
unseal Rat.ofScientific in
/-- C10: `run_detection` cuts the session off as soon as its log reaches
12 messages — every returned list has at most 12 entries (hence at most
12 guidance messages and, a fortiori, at most 13 entries counting a
trailing diagnostic) — and the cap is not applied by
`run_detection_with_video`: on a 13-frame input that emits one message
per frame, `run_detection` returns 12 messages where
`run_detection_with_video` returns 13. -/
theorem C10_twelve_message_cap :
    (∀ (openOk : Bool) (frame_w frame_h fps0 : ℚ) (frames : List FrameOutcome),
      (run_detection openOk frame_w frame_h fps0 frames).length ≤ 12) ∧
    (run_detection true 900 600 3 capFrames13).length = 12 ∧
    (run_detection_with_video true 900 600 3 capFrames13).length = 13 := by
  refine ⟨?_, ?_, ?_⟩
  · intro openOk frame_w frame_h fps0 frames
    unfold run_detection
    cases openOk with
    | false => simp
    | true =>
      simp only [Bool.not_true, Bool.false_eq_true, if_false]
      exact run_detection_loop_length_le _ _ _ _ frames 0 emptyDetState [] (by norm_num)
  · have h1 : run_detection true 900 600 3 capFrames13 =
        run_detection_loop (sample_interval_of 3) 3 900 600 capFrames13 0 emptyDetState [] := by
      unfold run_detection
      norm_num
    rw [h1, sample_interval_of_three]
    decide
  · have h1 : run_detection_with_video true 900 600 3 capFrames13 =
        run_detection_with_video_loop (sample_interval_of 3) 3 900 600 capFrames13
          0 emptyDetState [] := by
      unfold run_detection_with_video
      norm_num
    rw [h1, sample_interval_of_three]
    decide
